import Mathlib

/-
Shallow embedding of the tenant-aware authentication core of the
Multi_tenant_backend repository, together with theorems settling the
frozen claims about it.

Python strings are modelled as lists of Unicode code points (`PyStr`)
where byte-level behaviour matters (password truncation), and as Lean
`String`s elsewhere (names, emails, identifiers).  Fallible operations
return `Except`; stateful operations pass the store state explicitly.

The file is organised as: all definitions first, then the supporting
lemmas and the claim theorems.
-/

namespace MT

/-! ## Definitions -/

/-! ### Passwords (`auth/password_handler.py`, `core/security.py`) -/

/-- A Python `str`: a sequence of Unicode code points. -/
abbrev PyStr := List Nat

/-- UTF-8 encoding of a single code point, as produced by Python's
`str.encode('utf-8')`. -/
def utf8EncodeChar (c : Nat) : List Nat :=
  if c < 0x80 then [c]
  else if c < 0x800 then [0xC0 + c / 0x40, 0x80 + c % 0x40]
  else if c < 0x10000 then
    [0xE0 + c / 0x1000, 0x80 + (c / 0x40) % 0x40, 0x80 + c % 0x40]
  else
    [0xF0 + c / 0x40000, 0x80 + (c / 0x1000) % 0x40,
     0x80 + (c / 0x40) % 0x40, 0x80 + c % 0x40]

/-- UTF-8 encoding of a Python string. -/
def utf8Encode : PyStr → List Nat
  | [] => []
  | c :: rest => utf8EncodeChar c ++ utf8Encode rest

/-- Modelled from the spec: the bcrypt digest produced by the external
passlib/bcrypt backend (`pwd_context.hash`).  The library is not part of
the repository; the spec fixes its relevant behaviour: the digest is a
one-way image of the first 72 bytes of the UTF-8 encoded password (bcrypt's
byte limit), with a per-call salt that does not affect verification.  We
model the digest by the effective key bytes it commits to. -/
structure BcryptDigest where
  key : List Nat
  deriving DecidableEq

/-- Modelled from the spec: `pwd_context.hash` — hashes the first 72 UTF-8
bytes of the password. -/
def bcryptHash (s : PyStr) : BcryptDigest :=
  ⟨(utf8Encode s).take 72⟩

/-- Modelled from the spec: `pwd_context.verify` — compares the first 72
UTF-8 bytes of the candidate against the digest's committed key. -/
def bcryptVerify (s : PyStr) (d : BcryptDigest) : Bool :=
  (utf8Encode s).take 72 == d.key

/-- `auth/password_handler.py : truncate_password` — encode the password as
UTF-8, keep the first 72 bytes, and decode those bytes as latin-1 (latin-1
maps byte `b` to code point `b`). -/
def truncate_password (password : PyStr) : PyStr :=
  (utf8Encode password).take 72

/-- `auth/password_handler.py : get_password_hash` — hash of the truncated
password. -/
def get_password_hash (password : PyStr) : BcryptDigest :=
  bcryptHash (truncate_password password)

/-- `auth/password_handler.py : verify_password` — verify the truncated
password against the stored digest. -/
def verify_password (plain_password : PyStr) (hashed_password : BcryptDigest) : Bool :=
  bcryptVerify (truncate_password plain_password) hashed_password

/-! ### Tenant resolution (`db/database_router.py`) -/

/-- The request context seen by `DatabaseRouter.get_current_db`:
`request.state.tenant_id` (set by the tenant middleware in `main.py` from the
validated bearer token's claims), the `tenant_id` path parameter, and the
`X-Tenant-ID` header.  `none` models an absent attribute/key. -/
structure RequestCtx where
  state_tenant_id : Option String
  path_tenant_id : Option String
  header_tenant_id : Option String
  deriving DecidableEq

/-- The database chosen by the router: the master database or a
tenant-specific database `tenant_{tenant_id}`. -/
inductive DbChoice where
  | master
  | tenant (tenant_id : String)
  deriving DecidableEq

/-- Python truthiness of an optional string: `None` and the empty string are
falsy. -/
def truthyStr : Option String → Bool
  | none => false
  | some s => !(s == "")

/-- `db/database_router.py : DatabaseRouter.get_current_db` — take the tenant
id from the token claims (request state) first; if falsy, from the path
parameter if present, else from the header if present; if still falsy, use
the master database, else the tenant database.  There is no cross-check of
token tenant against path tenant and no mismatch outcome. -/
def get_current_db (req : RequestCtx) : DbChoice :=
  let t0 := req.state_tenant_id
  let t1 :=
    if truthyStr t0 then t0
    else
      match req.path_tenant_id with
      | some p => some p
      | none =>
          match req.header_tenant_id with
          | some h => some h
          | none => none
  match t1 with
  | some s => if s == "" then DbChoice.master else DbChoice.tenant s
  | none => DbChoice.master

/-! ### Tokens (`core/security.py`, `auth/jwt_handler.py`) -/

/-- A decoded JWT payload.  Each field is `none` when the claim is absent
(or JSON `null`, which `payload.get` does not distinguish from absence,
except where noted).  `refresh` is the kind marker set only by
`create_refresh_token`; `org` is set only by `generate_org_admin_token`. -/
structure Payload where
  sub : Option String
  tenant_id : Option String
  is_superadmin : Option Bool
  refresh : Option Bool
  org : Option String
  scopes : Option (List String)
  deriving DecidableEq

/-- Python truthiness of an optional bool (`payload.get(...)`): absent,
`null` and `False` are falsy. -/
def truthyBool : Option Bool → Bool
  | some true => true
  | _ => false

/-- Python's `str(tenant_id) if tenant_id else None`: `None` and the empty
string collapse to `None`. -/
def pyOptStr : Option String → Option String
  | none => none
  | some s => if s = "" then none else some s

/-- `core/security.py : create_access_token` — payload of a new access
token: subject, normalized tenant id, superadmin flag, scope list (empty
when not supplied); no kind marker is written. -/
def create_access_token (subject : String) (tenant_id : Option String)
    (is_superadmin : Bool) (scopes : Option (List String)) : Payload :=
  { sub := some subject
    tenant_id := pyOptStr tenant_id
    is_superadmin := some is_superadmin
    refresh := none
    org := none
    scopes := some (scopes.getD []) }

/-- `core/security.py : create_refresh_token` — payload of a new refresh
token: subject, normalized tenant id, superadmin flag, and the kind marker
`refresh: True`. -/
def create_refresh_token (subject : String) (tenant_id : Option String)
    (is_superadmin : Bool) : Payload :=
  { sub := some subject
    tenant_id := pyOptStr tenant_id
    is_superadmin := some is_superadmin
    refresh := some true
    org := none
    scopes := none }

/-- An error raised by the auth code: the HTTP-style errors it raises
deliberately (status class and detail message), and the Python-level
exceptions that escape it before it can act (a pydantic `ValidationError`
from constructing a model value, a `NameError` from an undefined name). -/
inductive AuthErr where
  | unauthorized (detail : String)
  | forbidden (detail : String)
  | badRequest (detail : String)
  | validationFailed (detail : String)
  | nameNotDefined (detail : String)
  deriving DecidableEq

/-- The `AdminUserInDB` value built by the placeholder user lookup in
`core/security.py : get_current_user` (`is_active` defaults to `True` in the
pydantic model). -/
structure CurrentUser where
  id : String
  email : String
  hashed_password : String
  org_name : String
  is_superadmin : Bool
  is_active : Bool
  deriving DecidableEq

/-- `core/security.py : get_current_user` — given the decoded payload of a
validly signed, unexpired bearer token, requires only the `sub` claim and
returns the placeholder user; the kind marker is never inspected. -/
def get_current_user (payload : Payload) : Except AuthErr CurrentUser :=
  match payload.sub with
  | none => .error (.forbidden "Could not validate credentials")
  | some user_id =>
      .ok { id := user_id
            email := "user@example.com"
            hashed_password := ""
            org_name := ""
            is_superadmin := (payload.is_superadmin).getD false
            is_active := true }

/-- `models/auth.py : TokenData` as returned by `get_current_org_admin`. -/
structure TokenData where
  admin_id : String
  org_of_admin : String
  is_superadmin : Bool
  deriving DecidableEq

/-- `auth/jwt_handler.py : get_current_org_admin` — given the decoded
payload of a validly signed, unexpired bearer token, fails with 401 when
`sub` or `org` is `None`; otherwise returns `TokenData` with
`is_superadmin` read via `payload.get("is_superadmin", False)`. -/
def get_current_org_admin (payload : Payload) : Except AuthErr TokenData :=
  match payload.sub, payload.org with
  | some admin_id, some org_name =>
      .ok { admin_id := admin_id
            org_of_admin := org_name
            is_superadmin := (payload.is_superadmin).getD false }
  | _, _ => .error (.unauthorized "Could not validate credentials")

/-! ### Session refresh (`services/auth_service.py`) -/

/-- A document of the `admin_users` collection, with the fields
`refresh_tokens` consults.  `is_active = none` models a document without the
field (`user.get("is_active", True)` then defaults to active);
`is_superadmin` and `tenant_of_user` stand for whatever privilege data the
store holds — `refresh_tokens` never reads them. -/
structure UserDoc where
  id : String
  email : String
  is_active : Option Bool
  is_superadmin : Bool
  tenant_of_user : Option String
  deriving DecidableEq

/-- `find_one({"_id": user_id})` on the `admin_users` collection. -/
def findUser (users : List UserDoc) (user_id : String) : Option UserDoc :=
  users.find? (fun u => u.id == user_id)

/-- The token pair returned by `AuthService.create_tokens`, with the decoded
payloads of the two freshly signed tokens. -/
structure TokenPair where
  access_token : Payload
  refresh_token : Payload
  token_type : String
  deriving DecidableEq

/-- `services/auth_service.py : AuthService.create_tokens` — issue an access
and a refresh token for the given subject, superadmin flag and tenant id. -/
def create_tokens (user_id : String) (is_superadmin : Bool)
    (tenant_id : Option String) : TokenPair :=
  { access_token := create_access_token user_id tenant_id is_superadmin none
    refresh_token := create_refresh_token user_id tenant_id is_superadmin
    token_type := "bearer" }

/-- `services/auth_service.py : AuthService.refresh_tokens` — given the
decoded payload of a validly signed, unexpired token: reject unless the
`refresh` kind marker is truthy; reject a falsy `sub`; re-validate that the
user still exists and is active; then issue a fresh token pair from the
payload's `sub`, `is_superadmin` (default `False`) and `tenant_id`. -/
def refresh_tokens (users : List UserDoc) (payload : Payload) :
    Except AuthErr TokenPair :=
  if truthyBool payload.refresh = false then
    .error (.unauthorized "Invalid token type")
  else if truthyStr payload.sub = false then
    .error (.unauthorized "Invalid token")
  else
    match findUser users ((payload.sub).getD "") with
    | none => .error (.unauthorized "User not found or inactive")
    | some u =>
        if (u.is_active).getD true = false then
          .error (.unauthorized "User not found or inactive")
        else
          .ok (create_tokens ((payload.sub).getD "")
                ((payload.is_superadmin).getD false) payload.tenant_id)

/-- Whether the store holds an active principal under the given id
(`find_one` succeeds and `is_active` does not read as `False`). -/
def activeUser (users : List UserDoc) (user_id : String) : Bool :=
  match findUser users user_id with
  | none => false
  | some u => (u.is_active).getD true

/-! ### Login with lockout (`routes/auth_routes.py : login_for_access_token`) -/

/-- A document of the `users` collection as consulted by the login route.
`login_attempts = none` models a document without the field
(`user.get("login_attempts", 0)` then reads 0); `account_locked_until = none`
models an absent or `null` lock timestamp (both falsy).  Registered users
always carry a password hash, so the `.get("password_hash", "")` default for
a hash-less document is not modelled.  Times are minutes. -/
structure LoginUserDoc where
  id : String
  email : String
  password_hash : BcryptDigest
  login_attempts : Option Nat
  account_locked_until : Option Nat
  is_active : Option Bool
  last_login : Option Nat
  deriving DecidableEq

/-- Python's `str.lower()` (on the ASCII range relevant here). -/
def pyLower (s : String) : String :=
  ⟨s.data.map Char.toLower⟩

/-- `find_one({"email": username.lower()})` on the `users` collection. -/
def findByEmail (users : List LoginUserDoc) (email : String) :
    Option LoginUserDoc :=
  users.find? (fun u => u.email == email)

/-- `update_one({"_id": uid}, ...)`: apply the patch to the matching
document. -/
def updateLoginUser (users : List LoginUserDoc) (uid : String)
    (patch : LoginUserDoc → LoginUserDoc) : List LoginUserDoc :=
  users.map (fun u => if u.id == uid then patch u else u)

/-- Outcome of the login route, by status code and detail. -/
inductive LoginResult where
  | success (user_id : String)
  | invalidCredentials
  | accountLocked
  | inactiveUser
  deriving DecidableEq

/-- The 15-minute lockout window of the login route. -/
def lockoutWindow : Nat := 15

/-- Python's `user.get("account_locked_until") and
user["account_locked_until"] > datetime.utcnow()`. -/
def lockActive (lock : Option Nat) (now : Nat) : Bool :=
  match lock with
  | some t => decide (now < t)
  | none => false

/-- `auth/password_handler.py : verify_password` is an `async def`, and
`routes/auth_routes.py` line 83 calls it without `await`: the value of the
call is a coroutine object, and a coroutine object's Python truthiness is
always `True`. -/
def coroutine_truthy : Bool := true

/-- `routes/auth_routes.py : login_for_access_token` — look up the user by
lowercased email.  The guard `not user or not verify_password(...)` tests
the truthiness of the un-awaited `verify_password` call, i.e. of a coroutine
object, so for an existing user it is never taken: the
increment-and-maybe-lock branch below is dead code, kept here exactly as
written.  Every call on an existing user proceeds to the lock check (403 if
a lock is set and unexpired), the activity check (400), and otherwise resets
the counter, clears the lock, stamps `last_login` and succeeds — whatever
the password. -/
def login_for_access_token (users : List LoginUserDoc) (now : Nat)
    (username : String) (password : PyStr) :
    List LoginUserDoc × LoginResult :=
  match findByEmail users (pyLower username) with
  | none => (users, .invalidCredentials)
  | some user =>
      if coroutine_truthy = false then
        let users1 := updateLoginUser users user.id (fun v =>
          { v with login_attempts := some ((v.login_attempts).getD 0 + 1) })
        let users2 :=
          if (user.login_attempts).getD 0 ≥ 4 then
            updateLoginUser users1 user.id (fun v =>
              { v with account_locked_until := some (now + lockoutWindow) })
          else users1
        (users2, .invalidCredentials)
      else if lockActive user.account_locked_until now then
        (users, .accountLocked)
      else if (user.is_active).getD true = false then
        (users, .inactiveUser)
      else
        (updateLoginUser users user.id (fun v =>
          { v with last_login := some now, login_attempts := some 0,
                   account_locked_until := none }),
         .success user.id)

/-! ### Tenant onboarding (`services/tenant_service.py`,
`services/auth_service.py : create_user`) -/

/-- A document of the `admin_users` collection as `AuthService.create_user`
would write it; no state reachable through `create_tenant` ever contains
one, since the onboarding path raises before its insert. -/
structure AdminDoc where
  id : Nat
  email : String
  hashed_password : BcryptDigest
  is_superadmin : Bool
  is_active : Bool
  deriving DecidableEq

/-- A document of the `tenants` collection as `TenantService.create_tenant`
would write it (its insert is likewise unreachable). -/
structure TenantDoc where
  id : Nat
  name : String
  domain : String
  admin_id : Nat
  is_active : Bool
  deriving DecidableEq

/-- The master database state used by tenant onboarding: the two collections
and a counter supplying fresh inserted ids. -/
structure MasterState where
  admin_users : List AdminDoc
  tenants : List TenantDoc
  next_id : Nat
  deriving DecidableEq

/-- `models/tenant.py : TenantCreate` — the onboarding request. -/
structure TenantCreate where
  name : String
  domain : String
  admin_name : String
  admin_email : String
  admin_password : PyStr
  deriving DecidableEq

/-- `services/tenant_service.py : TenantService.create_tenant` — reject a
duplicate *domain* with 400; otherwise call `_create_tenant_admin`, which
constructs `AdminUserCreate(email=..., password=..., full_name=...,
is_superadmin=...)`.  `models/user.py : AdminUserCreate` requires the
`org_name` field, which is never supplied (and has no `full_name` field), so
pydantic raises `ValidationError` on every such call before any store write:
the admin insert, the tenant insert and any rollback are unreachable. -/
def create_tenant (st : MasterState) (td : TenantCreate) :
    MasterState × Except AuthErr TenantDoc :=
  match st.tenants.find? (fun t => t.domain == td.domain) with
  | some _ =>
      (st, .error (.badRequest "Tenant with this domain already exists"))
  | none =>
      (st, .error (.validationFailed "AdminUserCreate: org_name field required"))

/-! ### Organization creation (`api/v1/organization.py`) -/

/-- Python's `str.replace(' ', '_')` for the single-character pattern used
here. -/
def replaceSpaces (s : String) : String :=
  ⟨s.data.map (fun c => if c = ' ' then '_' else c)⟩

/-- `api/v1/organization.py` line 46 and
`services/org_service.py : _get_collection_name` — the storage-namespace key
derived from an organization name:
`f"org_{org_name.lower().replace(' ', '_')}"`. -/
def get_collection_name (org_name : String) : String :=
  "org_" ++ replaceSpaces (pyLower org_name)

/-- A document of the `organizations` collection as
`api/v1/organization.py : create_organization` would write it (its insert is
never reached). -/
structure OrgDoc where
  organization_name : String
  collection_name : String
  admin_email : String
  hashed_password : BcryptDigest
  deriving DecidableEq

/-- `api/v1/organization.py : create_organization`, body as written: reject
an exact duplicate of `organization_name` with 400; otherwise derive the
collection name (line 46) and hash the password, then build `org_doc` with
`datetime.utcnow()` (line 57) — but `datetime` is never imported in this
module, so a `NameError` is raised there, before `insert_one`: no
organization is ever written.  The module as a whole does not even parse
(the decorator at line 184 is indented inside `delete_organization` while
the following `async def` is dedented), and the variant
`services/org_service.py : create_organization` also always raises, on the
undefined `self.get_organization`. -/
def create_organization (orgs : List OrgDoc) (organization_name email : String)
    (password : PyStr) : List OrgDoc × Except AuthErr OrgDoc :=
  match orgs.find? (fun o => o.organization_name == organization_name) with
  | some _ => (orgs, .error (.badRequest "Organization already exists"))
  | none => (orgs, .error (.nameNotDefined "datetime"))

/-! ## Supporting lemmas -/

lemma utf8EncodeChar_ascii (c : Nat) (h : c < 0x80) : utf8EncodeChar c = [c] := by
  simp [utf8EncodeChar, h]

lemma utf8Encode_ascii (s : PyStr) (h : ∀ c ∈ s, c < 0x80) : utf8Encode s = s := by
  induction s with
  | nil => rfl
  | cons c rest ih =>
    have hc : c < 0x80 := h c (by simp)
    have hr : ∀ x ∈ rest, x < 0x80 := fun x hx => h x (by simp [hx])
    simp [utf8Encode, utf8EncodeChar_ascii c hc, ih hr]

lemma pyOptStr_idem (t : Option String) : pyOptStr (pyOptStr t) = pyOptStr t := by
  cases t with
  | none => rfl
  | some s =>
      by_cases h : s = ""
      · simp [pyOptStr, h]
      · simp [pyOptStr, h]

lemma refresh_tokens_ok_eq (users : List UserDoc) (p : Payload) (pair : TokenPair)
    (h : refresh_tokens users p = .ok pair) :
    pair = create_tokens ((p.sub).getD "") ((p.is_superadmin).getD false)
      p.tenant_id := by
  by_cases hk : truthyBool p.refresh = false
  · simp [refresh_tokens, hk] at h
  · by_cases hs : truthyStr p.sub = false
    · simp [refresh_tokens, hk, hs] at h
    · cases hf : findUser users ((p.sub).getD "") with
      | none => simp [refresh_tokens, hk, hs, hf] at h
      | some u =>
          by_cases hia : (u.is_active).getD true = false
          · simp [refresh_tokens, hk, hs, hf, hia] at h
          · simp [refresh_tokens, hk, hs, hf, hia] at h
            exact h.symm

/-! ## Claim theorems -/

/-- Claim C1: with token-claim tenant "A" and path tenant "B", resolution
does not fail closed: `get_current_db` silently returns tenant "A"'s
database.  (The result type of the router has no mismatch outcome at all.) -/
theorem c1_tenant_mismatch_not_failed_closed :
    get_current_db ⟨some "A", some "B", none⟩ = DbChoice.tenant "A" := by
  rfl

/-- Claim C2: the kind marker is enforced only on the refresh side.  An
access token (no `refresh` claim) presented to `refresh_tokens` does fail
with "Invalid token type", but a refresh token presented where an access
token is required is accepted: `get_current_user` on the payload of
`create_refresh_token "u1" none false` returns an authenticated, active
user instead of failing with a wrong-kind error. -/
theorem c2_refresh_token_accepted_as_access :
    refresh_tokens [] (create_access_token "u1" none false none) =
      .error (.unauthorized "Invalid token type") ∧
    get_current_user (create_refresh_token "u1" none false) =
      .ok { id := "u1", email := "user@example.com", hashed_password := ""
            org_name := "", is_superadmin := false, is_active := true } := by
  exact ⟨rfl, rfl⟩

/-- Claim C3: for every store and every refresh payload (kind marker truthy,
non-empty subject), the refresh operation rejects with the 401
"User not found or inactive" error exactly when the principal has been
deleted or deactivated, and any successful refresh implies the principal
still exists and is active. -/
theorem c3_refresh_revalidates_principal (users : List UserDoc) (p : Payload)
    (hk : truthyBool p.refresh = true) (hs : truthyStr p.sub = true) :
    (activeUser users ((p.sub).getD "") = false →
      refresh_tokens users p =
        .error (.unauthorized "User not found or inactive")) ∧
    (∀ pair, refresh_tokens users p = .ok pair →
      activeUser users ((p.sub).getD "") = true) := by
  constructor
  · intro hin
    cases hf : findUser users ((p.sub).getD "") with
    | none => simp [refresh_tokens, hk, hs, hf]
    | some u =>
        have hu : (u.is_active).getD true = false := by
          have h0 := hin
          unfold activeUser at h0
          rw [hf] at h0
          simpa using h0
        simp [refresh_tokens, hk, hs, hf, hu]
  · intro pair hok
    cases hf : findUser users ((p.sub).getD "") with
    | none => simp [refresh_tokens, hk, hs, hf] at hok
    | some u =>
        by_cases hia : (u.is_active).getD true = false
        · simp [refresh_tokens, hk, hs, hf, hia] at hok
        · unfold activeUser
          rw [hf]
          simpa using hia

/-- Witness for C3: the deactivated principal "u1" and the deleted principal
"u2" are both rejected; the concrete payloads are accepted refresh payloads
except for the principal check. -/
theorem c3_refresh_revalidates_principal_witness :
    refresh_tokens [⟨"u1", "a@x.com", some false, true, none⟩]
        ⟨some "u1", none, some true, some true, none, none⟩ =
      .error (.unauthorized "User not found or inactive") ∧
    refresh_tokens [⟨"u1", "a@x.com", some false, true, none⟩]
        ⟨some "u2", none, none, some true, none, none⟩ =
      .error (.unauthorized "User not found or inactive") :=
  ⟨(c3_refresh_revalidates_principal
      [⟨"u1", "a@x.com", some false, true, none⟩]
      ⟨some "u1", none, some true, some true, none, none⟩ rfl rfl).1 (by decide),
   (c3_refresh_revalidates_principal
      [⟨"u1", "a@x.com", some false, true, none⟩]
      ⟨some "u2", none, none, some true, none, none⟩ rfl rfl).1 (by decide)⟩

/-- Claim C4: the lockout never engages.  For the fresh user "u1" (no
attempts recorded, no lock) whose stored hash is that of "pw123456", five
login calls with the wrong password "xx" at minutes 0..4 followed by a call
with the correct password at minute 5 all succeed: the un-awaited
`verify_password` makes the wrong-password branch unreachable, so the 6th
call returns success — not account-locked — and the final stored document
shows `login_attempts` reset to 0 and no `account_locked_until` ever set. -/
theorem c4_unawaited_verify_never_locks :
    (login_for_access_token
      (login_for_access_token
        (login_for_access_token
          (login_for_access_token
            (login_for_access_token
              (login_for_access_token
                [⟨"u1", "a@x.com",
                  get_password_hash [112, 119, 49, 50, 51, 52, 53, 54],
                  none, none, some true, none⟩]
                0 "A@x.com" [120, 120]).1
              1 "A@x.com" [120, 120]).1
            2 "A@x.com" [120, 120]).1
          3 "A@x.com" [120, 120]).1
        4 "A@x.com" [120, 120]).1
      5 "A@x.com" [112, 119, 49, 50, 51, 52, 53, 54]) =
    ([⟨"u1", "a@x.com", get_password_hash [112, 119, 49, 50, 51, 52, 53, 54],
        some 0, none, some true, some 5⟩],
     LoginResult.success "u1") := by
  rfl

/-- Claim C5: the rollback scenario cannot arise because the code fails
earlier: evaluated at a fresh onboarding request against an empty store,
`create_tenant` raises ValidationError inside `_create_tenant_admin` before
any write — the state comes back unchanged (no admin principal and no
tenant is ever created, so there is nothing to roll back and no orphan
either, but equally no create-then-rollback path as the claim describes). -/
theorem c5_create_tenant_fails_before_any_write :
    create_tenant ⟨[], [], 0⟩ ⟨"Acme", "acme", "Alice", "alice@x.com", [112, 119]⟩ =
      (⟨[], [], 0⟩,
       .error (.validationFailed "AdminUserCreate: org_name field required")) := by
  rfl

/-- Claim C6, counterexample: a second `create_tenant` call with the same
name "Acme" (an exact resubmission) fails with pydantic's ValidationError,
not with the AlreadyExists duplicate error the claim names, and the store is
unchanged — the first call never created anything either. -/
theorem c6_second_same_name_call_not_already_exists :
    (create_tenant
        (create_tenant ⟨[], [], 0⟩ ⟨"Acme", "acme", "Alice", "alice@x.com", [112]⟩).1
        ⟨"Acme", "acme", "Alice", "alice@x.com", [112]⟩).2 =
      .error (.validationFailed "AdminUserCreate: org_name field required") ∧
    (create_tenant
        (create_tenant ⟨[], [], 0⟩ ⟨"Acme", "acme", "Alice", "alice@x.com", [112]⟩).1
        ⟨"Acme", "acme", "Alice", "alice@x.com", [112]⟩).2 ≠
      .error (.badRequest "Tenant with this domain already exists") ∧
    (create_tenant
        (create_tenant ⟨[], [], 0⟩ ⟨"Acme", "acme", "Alice", "alice@x.com", [112]⟩).1
        ⟨"Acme", "acme", "Alice", "alice@x.com", [112]⟩).1 = ⟨[], [], 0⟩ := by
  refine ⟨rfl, ?_, rfl⟩
  intro h
  have h2 : (Except.error
        (AuthErr.validationFailed "AdminUserCreate: org_name field required") :
      Except AuthErr TenantDoc) =
      Except.error (AuthErr.badRequest "Tenant with this domain already exists") := h
  simp at h2

/-- Claim C6 (amended): every `create_tenant` call fails and leaves the
store unchanged — in particular a second call with the same name creates no
second admin principal — but the failure is either the duplicate-domain 400
(only against a pre-existing tenant record, which this code path can never
produce) or, on every call that passes the domain check, the pydantic
ValidationError raised in `_create_tenant_admin` before any write; it is
never an AlreadyExists error for a duplicate name. -/
theorem c6_create_tenant_always_fails_store_unchanged
    (st : MasterState) (td : TenantCreate) :
    ((create_tenant st td).2 =
        .error (.badRequest "Tenant with this domain already exists") ∨
      (create_tenant st td).2 =
        .error (.validationFailed "AdminUserCreate: org_name field required")) ∧
    (create_tenant st td).1 = st := by
  cases hf : st.tenants.find? (fun t => t.domain == td.domain) with
  | none => simp [create_tenant, hf]
  | some t0 => simp [create_tenant, hf]

set_option maxRecDepth 4000 in
/-- Claim C7, counterexample: for the 73-character password made of the code
point é (0xE9), whose UTF-8 encoding is 146 bytes (beyond the 72-byte limit),
the password verifies against its own hash but not against the hash of its
truncation: `hash(p)` and `hash(truncate(p))` are not verify-equivalent,
because `truncate` is not idempotent on non-ASCII input. -/
theorem c7_truncate_not_idempotent_counterexample :
    72 < (utf8Encode (List.replicate 73 233)).length ∧
    verify_password (List.replicate 73 233)
      (get_password_hash (List.replicate 73 233)) = true ∧
    verify_password (List.replicate 73 233)
      (get_password_hash (truncate_password (List.replicate 73 233))) = false := by
  decide

/-- Claim C7 (amended): for every password `p`, `verify(p, hash(p))` is true,
because the same deterministic truncation is applied on both the hash path
and the verify path; and `hash(p)` and `hash(truncate(p))` coincide for
passwords whose truncation consists of ASCII code points only (for non-ASCII
input the truncation is not idempotent and the two digests can differ). -/
theorem c7_verify_roundtrip_and_ascii_equivalence :
    (∀ p : PyStr, verify_password p (get_password_hash p) = true) ∧
    (∀ p : PyStr, (∀ c ∈ truncate_password p, c < 0x80) →
      get_password_hash (truncate_password p) = get_password_hash p) := by
  constructor
  · intro p
    simp [verify_password, get_password_hash, bcryptVerify, bcryptHash]
  · intro p h
    unfold get_password_hash
    have htr : truncate_password (truncate_password p) = truncate_password p := by
      calc truncate_password (truncate_password p)
          = (utf8Encode (truncate_password p)).take 72 := rfl
        _ = (truncate_password p).take 72 := by rw [utf8Encode_ascii _ h]
        _ = truncate_password p := by
              unfold truncate_password
              simp [List.take_take]
    rw [htr]

/-- Witness for C7: the round trip at the concrete password "abc", and digest
agreement at the concrete all-ASCII password of 80 letters a. -/
theorem c7_verify_roundtrip_and_ascii_equivalence_witness :
    verify_password [97, 98, 99] (get_password_hash [97, 98, 99]) = true ∧
    get_password_hash (truncate_password (List.replicate 80 97)) =
      get_password_hash (List.replicate 80 97) :=
  ⟨c7_verify_roundtrip_and_ascii_equivalence.1 [97, 98, 99],
   c7_verify_roundtrip_and_ascii_equivalence.2 (List.replicate 80 97) (by decide)⟩

/-- Claim C8: neither half of the invariant is implemented.  The derived-key
formula (executed at line 46 before the crash, and identical in
`org_service._get_collection_name`) maps the distinct names "My Org" and
"my org" to the same key "org_my_org", so the mapping is deterministic but
not collision-free; and no creation is ever accepted — `create_organization`
on a fresh name raises NameError on the unimported `datetime` before
`insert_one`, leaving the store unchanged, so collision rejection at
creation never happens (only an exact-name duplicate would even reach the
400 branch). -/
theorem c8_key_collides_and_creation_never_accepted :
    ("My Org" : String) ≠ "my org" ∧
    get_collection_name "My Org" = get_collection_name "my org" ∧
    get_collection_name "My Org" = "org_my_org" ∧
    create_organization [] "My Org" "a@x.com" [112] =
      ([], .error (.nameNotDefined "datetime")) ∧
    create_organization [] "my org" "b@x.com" [113] =
      ([], .error (.nameNotDefined "datetime")) := by
  refine ⟨by decide, by decide, by decide, by rfl, by rfl⟩

/-- Claim C9: for every decoded payload, if `sub` and `org` are present but
the `is_superadmin` claim is absent, `get_current_org_admin` succeeds with
`is_superadmin = false`; if `sub` or `org` is absent it fails with the 401
credentials error. -/
theorem c9_missing_superadmin_defaults_false (p : Payload) :
    (∀ a o, p.sub = some a → p.org = some o → p.is_superadmin = none →
      get_current_org_admin p =
        .ok { admin_id := a, org_of_admin := o, is_superadmin := false }) ∧
    ((p.sub = none ∨ p.org = none) →
      get_current_org_admin p =
        .error (.unauthorized "Could not validate credentials")) := by
  constructor
  · intro a o ha ho hs
    simp [get_current_org_admin, ha, ho, hs]
  · intro h
    rcases h with h | h
    · simp [get_current_org_admin, h]
    · cases hs : p.sub with
      | none => simp [get_current_org_admin, hs]
      | some a => simp [get_current_org_admin, hs, h]

/-- Witness for C9 at two concrete payloads: one with `sub`/`org` present and
`is_superadmin` absent, one with `org` absent. -/
theorem c9_missing_superadmin_defaults_false_witness :
    get_current_org_admin ⟨some "a1", none, none, none, some "OrgX", none⟩ =
      .ok { admin_id := "a1", org_of_admin := "OrgX", is_superadmin := false } ∧
    get_current_org_admin ⟨some "a1", none, none, none, none, none⟩ =
      .error (.unauthorized "Could not validate credentials") :=
  ⟨(c9_missing_superadmin_defaults_false
      ⟨some "a1", none, none, none, some "OrgX", none⟩).1 "a1" "OrgX" rfl rfl rfl,
   (c9_missing_superadmin_defaults_false
      ⟨some "a1", none, none, none, none, none⟩).2 (Or.inr rfl)⟩

/-- Claim C10: for every refresh token issued by `create_refresh_token` that
the refresh operation accepts, the newly issued access and refresh tokens
carry exactly the presented token's `sub`, `tenant_id` and `is_superadmin`
claims, and the result is independent of the identity store's contents: two
stores that both accept the token (whatever privilege data they record for
the user) yield identical new tokens. -/
theorem c10_refresh_copies_claims_from_token
    (subject : String) (tid : Option String) (sup : Bool)
    (users1 users2 : List UserDoc) (pair1 pair2 : TokenPair)
    (h1 : refresh_tokens users1 (create_refresh_token subject tid sup) = .ok pair1)
    (h2 : refresh_tokens users2 (create_refresh_token subject tid sup) = .ok pair2) :
    pair1 = pair2 ∧
    pair1.access_token.sub = (create_refresh_token subject tid sup).sub ∧
    pair1.access_token.tenant_id = (create_refresh_token subject tid sup).tenant_id ∧
    pair1.access_token.is_superadmin = (create_refresh_token subject tid sup).is_superadmin ∧
    pair1.refresh_token.sub = (create_refresh_token subject tid sup).sub ∧
    pair1.refresh_token.tenant_id = (create_refresh_token subject tid sup).tenant_id ∧
    pair1.refresh_token.is_superadmin = (create_refresh_token subject tid sup).is_superadmin := by
  have e1 := refresh_tokens_ok_eq _ _ _ h1
  have e2 := refresh_tokens_ok_eq _ _ _ h2
  have epair : pair1 = pair2 := by rw [e1, e2]
  refine ⟨epair, ?_, ?_, ?_, ?_, ?_, ?_⟩ <;>
    simp [e1, create_refresh_token, create_tokens, create_access_token,
      pyOptStr_idem]

/-- Witness for C10: a concrete superadmin-flagged refresh token for "u7"
with tenant "t3", refreshed against two stores whose privilege data for "u7"
disagree with the token and with each other. -/
theorem c10_refresh_copies_claims_from_token_witness :
    create_tokens "u7" true (some "t3") = create_tokens "u7" true (some "t3") ∧
    (create_tokens "u7" true (some "t3")).access_token.sub =
      (create_refresh_token "u7" (some "t3") true).sub ∧
    (create_tokens "u7" true (some "t3")).access_token.tenant_id =
      (create_refresh_token "u7" (some "t3") true).tenant_id ∧
    (create_tokens "u7" true (some "t3")).access_token.is_superadmin =
      (create_refresh_token "u7" (some "t3") true).is_superadmin ∧
    (create_tokens "u7" true (some "t3")).refresh_token.sub =
      (create_refresh_token "u7" (some "t3") true).sub ∧
    (create_tokens "u7" true (some "t3")).refresh_token.tenant_id =
      (create_refresh_token "u7" (some "t3") true).tenant_id ∧
    (create_tokens "u7" true (some "t3")).refresh_token.is_superadmin =
      (create_refresh_token "u7" (some "t3") true).is_superadmin :=
  c10_refresh_copies_claims_from_token "u7" (some "t3") true
    [⟨"u7", "a@x.com", some true, false, none⟩]
    [⟨"u7", "a@x.com", none, true, some "other"⟩]
    (create_tokens "u7" true (some "t3")) (create_tokens "u7" true (some "t3"))
    (by rfl) (by rfl)

end MT
